import Mathlib

/-
Verification development for the interactive Ursula console protocol
(src/nucypher/cli/processes.py, class UrsulaCommandProtocol).

The embedding is shallow: the command table, line dispatcher, help
renderer, prompt and connection hooks are translated into executable
Lean definitions.  Command handlers are external collaborators; they
are modelled as a parameter assigning to each handler the way its
invocation terminates (normal return, raising KeyError, or raising any
other exception), since the dispatcher observes nothing else about
them.  Python exceptions that escape a method are modelled by the
raised field of the result.
-/

/-- The eight handler methods exposed by the command table of
UrsulaCommandProtocol.  The two aliases ? and help resolve to the
single method paintHelp. -/
inductive Cmd
  | paintHelp
  | paintStatus
  | paintKnownNodes
  | paintFleetState
  | cycleTeacher
  | startLearning
  | stopLearning
  | stop
deriving DecidableEq

/-- How a handler invocation terminates: normal return, raising
KeyError, or raising some exception that is not a KeyError. -/
inductive HandlerBehavior
  | ok
  | keyError
  | otherError
deriving DecidableEq

/-- The Python exception classes that matter to this layer. -/
inductive PyExc
  | unicodeDecodeError
  | keyError
  | attributeError
  | otherError
deriving DecidableEq

/-- Observable actions of the protocol: a handler invocation, a line
printed via click.secho, or bytes written to the transport. -/
inductive Event
  | invoked (c : Cmd)
  | echoed (msg : String)
  | wrote (s : String)
deriving DecidableEq

/-- Result of feeding one line to the dispatcher: the events in order,
the history afterwards, and the exception propagating out of
lineReceived, if any. -/
structure LineResult where
  events : List Event
  history : List String
  raised : Option PyExc
deriving DecidableEq

/-- Control calls the console makes on the attached node.  R is the
type of the Twisted disconnect reason, opaque to this layer. -/
inductive NodeCall (R : Type)
  | stopLearningLoop (reason : R)
deriving DecidableEq

/- ---------------------------------------------------------------
Python string primitives used by the dispatcher.
--------------------------------------------------------------- -/

/-- The character class stripped by the Python methods str.strip and
str.lstrip with no argument (the characters for which str.isspace
holds). -/
def isPySpace (c : Char) : Bool :=
  let n := c.toNat
  (decide (9 ≤ n) && decide (n ≤ 13)) ||
  (decide (28 ≤ n) && decide (n ≤ 32)) ||
  (n == 0x85) || (n == 0xA0) || (n == 0x1680) ||
  (decide (0x2000 ≤ n) && decide (n ≤ 0x200A)) ||
  (n == 0x2028) || (n == 0x2029) || (n == 0x202F) ||
  (n == 0x205F) || (n == 0x3000)

/-- Python str.strip with no argument: remove leading and trailing
whitespace. -/
def pyStrip (s : String) : String :=
  String.mk (((s.data.dropWhile isPySpace).reverse.dropWhile isPySpace).reverse)

/-- Python str.lstrip with no argument: remove leading whitespace. -/
def pyLstrip (s : String) : String :=
  String.mk (s.data.dropWhile isPySpace)

/-- The lower-case mapping of one character.  The command names are
pure ASCII, so the ASCII case mapping of Python str.lower is the part
this layer exercises. -/
def lowerChar (c : Char) : Char :=
  if decide (0x41 ≤ c.toNat) && decide (c.toNat ≤ 0x5A) then
    Char.ofNat (c.toNat + 0x20)
  else c

/-- Python str.lower, on the ASCII range exercised by the command
names. -/
def pyLower (s : String) : String :=
  String.mk (s.data.map lowerChar)

/- ---------------------------------------------------------------
UTF-8 decoding, as performed by bytes.decode(encoding=utf-8) in
strict mode: continuation bytes are 80..BF, overlong encodings,
surrogates (lead ED with second byte A0..BF) and code points above
10FFFF are rejected.  The first argument is fuel; the decoder is
always called with the length of the byte list, which bounds the
number of decoding steps, so the fuel-exhaustion branch is
unreachable. -/

/-- Is b a UTF-8 continuation byte. -/
def utf8Cont (b : Nat) : Bool :=
  decide (0x80 ≤ b) && decide (b < 0xC0)

/-- Admissible second byte of a three-byte sequence with lead byte b. -/
def utf8Second3 (b b2 : Nat) : Bool :=
  if b == 0xE0 then decide (0xA0 ≤ b2) && decide (b2 < 0xC0)
  else if b == 0xED then decide (0x80 ≤ b2) && decide (b2 < 0xA0)
  else utf8Cont b2

/-- Admissible second byte of a four-byte sequence with lead byte b. -/
def utf8Second4 (b b2 : Nat) : Bool :=
  if b == 0xF0 then decide (0x90 ≤ b2) && decide (b2 < 0xC0)
  else if b == 0xF4 then decide (0x80 ≤ b2) && decide (b2 < 0x90)
  else utf8Cont b2

/-- Strict UTF-8 decoding of a byte list into code points, with fuel. -/
def utf8DecodeFuel : Nat → List Nat → Option (List Nat)
  | _, [] => some []
  | 0, _ :: _ => none
  | fuel + 1, b :: bs =>
    if decide (b < 0x80) then
      (utf8DecodeFuel fuel bs).map (fun r => b :: r)
    else if decide (b < 0xC2) then none
    else if decide (b < 0xE0) then
      match bs with
      | b2 :: bs2 =>
        if utf8Cont b2 then
          (utf8DecodeFuel fuel bs2).map
            (fun r => ((b - 0xC0) * 0x40 + (b2 - 0x80)) :: r)
        else none
      | [] => none
    else if decide (b < 0xF0) then
      match bs with
      | b2 :: b3 :: bs3 =>
        if utf8Second3 b b2 && utf8Cont b3 then
          (utf8DecodeFuel fuel bs3).map
            (fun r => ((b - 0xE0) * 0x1000 + (b2 - 0x80) * 0x40 + (b3 - 0x80)) :: r)
        else none
      | _ => none
    else if decide (b < 0xF5) then
      match bs with
      | b2 :: b3 :: b4 :: bs4 =>
        if utf8Second4 b b2 && utf8Cont b3 && utf8Cont b4 then
          (utf8DecodeFuel fuel bs4).map
            (fun r => ((b - 0xF0) * 0x40000 + (b2 - 0x80) * 0x1000 +
                       (b3 - 0x80) * 0x40 + (b4 - 0x80)) :: r)
        else none
      | _ => none
    else none

/-- line.decode(encoding=utf-8): none models a UnicodeDecodeError. -/
def utf8Decode (bs : List Nat) : Option String :=
  (utf8DecodeFuel bs.length bs).map (fun cps => String.mk (cps.map Char.ofNat))

/-- UTF-8 encoding of an ASCII string, for concrete test inputs. -/
def asciiBytes (s : String) : List Nat :=
  s.data.map Char.toNat

/- ---------------------------------------------------------------
The command registry, built by the constructor.
--------------------------------------------------------------- -/

/-- The dictionary self.__commands exactly as assigned in the
constructor, in insertion order. -/
def commandTable : List (String × Cmd) :=
  [ ("?", Cmd.paintHelp),
    ("help", Cmd.paintHelp),
    ("status", Cmd.paintStatus),
    ("known_nodes", Cmd.paintKnownNodes),
    ("fleet_state", Cmd.paintFleetState),
    ("cycle_teacher", Cmd.cycleTeacher),
    ("start_learning", Cmd.startLearning),
    ("stop_learning", Cmd.stopLearning),
    ("stop", Cmd.stop) ]

/-- Dictionary lookup self.__commands[key]: none models a KeyError. -/
def lookupCmd (key : String) : Option Cmd :=
  (commandTable.find? (fun p => p.1 == key)).map (fun p => p.2)

/-- The keys of self.__commands, in insertion order. -/
def commandNames : List String :=
  commandTable.map (fun p => p.1)

/-- The message emitted on a failed lookup of a non-empty key:
the format string with the comma-join of the command names. -/
def invalidInputMessage : String :=
  "Invalid input. Options are " ++ String.intercalate ", " commandNames

/-- The docstring attached to each handler method in the source.
Python stores the literal between the triple quotes, including the
surrounding indentation. -/
def pyDocs : Cmd → Option String
  | Cmd.paintHelp =>
      some "\n        Display this help message.\n        "
  | Cmd.paintStatus =>
      some "\n        Display the current status of the attached Ursula node.\n        "
  | Cmd.paintKnownNodes =>
      some "\n        Display a list of all known nucypher peers.\n        "
  | Cmd.paintFleetState =>
      some "\n        Display information about the network-wide fleet state as the attached Ursula node sees it.\n        "
  | Cmd.cycleTeacher =>
      some "\n        Manually direct the attached Ursula node to start learning from a different teacher.\n        "
  | Cmd.startLearning =>
      some "\n        Manually start the attached Ursula\x27s node learning protocol.\n        "
  | Cmd.stopLearning =>
      some "\n        Manually stop the attached Ursula\x27s node learning protocol.\n        "
  | Cmd.stop =>
      some "\n        Shutdown the attached running Ursula node.\n        "

/-- The constructor builds self.__commands by a literal dictionary
assignment.  It never reads the handler docstrings and has no failure
path whatever the docstring environment is, so it returns the table
unconditionally; the docstring environment is a parameter only to
record that it is ignored. -/
def uInit (_docs : Cmd → Option String) : Except PyExc (List (String × Cmd)) :=
  Except.ok commandTable

/-- The body of paintHelp after the header line: iterate the table in
order, skip names containing a question mark, and for each remaining
command render name, underline and left-stripped docstring.  A handler
whose docstring attribute is None makes the f-string raise
AttributeError, which the method re-raises as an AttributeError. -/
def paintHelpAux (docs : Cmd → Option String) :
    List (String × Cmd) → Except PyExc (List String)
  | [] => Except.ok []
  | (name, c) :: rest =>
    if name.data.contains '?' then paintHelpAux docs rest
    else
      match docs c with
      | none => Except.error PyExc.attributeError
      | some d =>
        (paintHelpAux docs rest).map
          (fun ls =>
            (name ++ "\n" ++ String.mk (List.replicate name.data.length '-') ++
             "\n" ++ pyLstrip d) :: ls)

/- ---------------------------------------------------------------
Prompt, connection hooks, dispatcher.
--------------------------------------------------------------- -/

/-- self.prompt, assigned in the constructor: the format string
Ursula( address prefix ) with the first nine characters of the
checksum public address. -/
def promptString (addr : String) : String :=
  "Ursula(" ++ String.mk (addr.data.take 9) ++ ") >>> "

/-- connectionMade: three secho banner lines, then the prompt written
to the transport. -/
def connectionMade (addr url icon nickname : String) : List Event :=
  [ Event.echoed ("Attached " ++ addr ++ "@" ++ url),
    Event.echoed (icon ++ " | " ++ nickname),
    Event.echoed "\nType \x27help\x27 or \x27?\x27 for help",
    Event.wrote (promptString addr) ]

/-- connectionLost: the single call
self.ursula.stop_learning_loop(reason=reason), the reason passed
through unmodified. -/
def connectionLost {R : Type} (reason : R) : List (NodeCall R) :=
  [NodeCall.stopLearningLoop reason]

/-- Keep the last cap elements of a list. -/
def dropToCap {α : Type} (cap : Nat) (l : List α) : List α :=
  l.drop (l.length - cap)

/-- deque(maxlen=10).append: append and evict from the front beyond
the capacity. -/
def dequeAppend {α : Type} (cap : Nat) (h : List α) (x : α) : List α :=
  dropToCap cap (h ++ [x])

/-- lineReceived after a successful decode.  raw is the decoded line;
the lookup key is its stripped, lower-cased form.  The try block
covers exactly the lookup and the handler call; a KeyError from either
reaches the same except clause, printing the invalid-input message
when the key is non-empty; any other handler exception propagates,
skipping the prompt write.  On a normal handler return the raw line is
appended to the bounded history.  The prompt write is the final
statement of the method. -/
def lineReceivedStr (addr : String) (hb : Cmd → HandlerBehavior)
    (history : List String) (raw : String) : LineResult :=
  let line := pyLower (pyStrip raw)
  match lookupCmd line with
  | none =>
    if line = "" then
      { events := [Event.wrote (promptString addr)],
        history := history, raised := none }
    else
      { events := [Event.echoed invalidInputMessage,
                   Event.wrote (promptString addr)],
        history := history, raised := none }
  | some c =>
    match hb c with
    | HandlerBehavior.ok =>
      { events := [Event.invoked c, Event.wrote (promptString addr)],
        history := dequeAppend 10 history raw, raised := none }
    | HandlerBehavior.keyError =>
      if line = "" then
        { events := [Event.invoked c, Event.wrote (promptString addr)],
          history := history, raised := none }
      else
        { events := [Event.invoked c, Event.echoed invalidInputMessage,
                     Event.wrote (promptString addr)],
          history := history, raised := none }
    | HandlerBehavior.otherError =>
      { events := [Event.invoked c], history := history,
        raised := some PyExc.otherError }

/-- lineReceived on raw bytes: the decode happens before the try
block, so a UnicodeDecodeError propagates out of the method with
nothing echoed, nothing written and the history untouched. -/
def lineReceivedBytes (addr : String) (hb : Cmd → HandlerBehavior)
    (history : List String) (bs : List Nat) : LineResult :=
  match utf8Decode bs with
  | none =>
    { events := [], history := history, raised := some PyExc.unicodeDecodeError }
  | some raw => lineReceivedStr addr hb history raw

/-- The history after a sequence of received byte lines. -/
def runLines (addr : String) (hb : Cmd → HandlerBehavior)
    (history : List String) (lines : List (List Nat)) : List String :=
  lines.foldl (fun h bs => (lineReceivedBytes addr hb h bs).history) history

/-- The raw line a received byte line contributes to the history: its
decoding, provided decode succeeds, the lookup of its normalized form
succeeds and the handler returns normally. -/
def acceptedRaw (hb : Cmd → HandlerBehavior) (bs : List Nat) : Option String :=
  match utf8Decode bs with
  | none => none
  | some raw =>
    match lookupCmd (pyLower (pyStrip raw)) with
    | none => none
    | some c => if hb c = HandlerBehavior.ok then some raw else none

/-- Does an event write to the transport. -/
def isWrite : Event → Bool
  | Event.wrote _ => true
  | _ => false

example : pyLower (pyStrip "  STATUS  ") = "status" := by decide
example : utf8Decode (asciiBytes "stop") = some "stop" := by decide
example : utf8Decode [0xFF] = none := by decide
example : lookupCmd "" = none := by decide
example :
    lineReceivedStr "0xABCDEF123" (fun _ => HandlerBehavior.ok) [] "  STATUS  " =
      { events := [Event.invoked Cmd.paintStatus, Event.wrote "Ursula(0xABCDEF1) >>> "],
        history := ["  STATUS  "], raised := none } := by decide

/- ---------------------------------------------------------------
Helper lemmas.
--------------------------------------------------------------- -/

theorem lookupCmd_mem : ∀ p ∈ commandTable, lookupCmd p.1 = some p.2 := by decide

theorem lookupCmd_empty : lookupCmd "" = none := by decide

theorem pyLower_ne_empty {s : String} (h : s ≠ "") : pyLower s ≠ "" := by
  intro hc
  apply h
  cases s with
  | mk data =>
    cases data with
    | nil => rfl
    | cons a l => exact absurd (congrArg String.data hc) (by simp [pyLower])

theorem dropToCap_of_le {α : Type} (cap : Nat) (l : List α) (h : l.length ≤ cap) :
    dropToCap cap l = l := by
  unfold dropToCap
  rw [Nat.sub_eq_zero_of_le h, List.drop_zero]

theorem dropToCap_length {α : Type} (cap : Nat) (l : List α) :
    (dropToCap cap l).length ≤ cap := by
  unfold dropToCap
  rw [List.length_drop]
  omega

theorem dropToCap_cons {α : Type} (cap : Nat) (a : α) (l : List α)
    (h : cap ≤ l.length) : dropToCap cap (a :: l) = dropToCap cap l := by
  unfold dropToCap
  have h1 : (a :: l).length - cap = (l.length - cap) + 1 := by
    simp only [List.length_cons]
    omega
  rw [h1, List.drop_succ_cons]

theorem dropToCap_append {α : Type} (cap : Nat) (l xs : List α) :
    dropToCap cap (dropToCap cap l ++ xs) = dropToCap cap (l ++ xs) := by
  induction l with
  | nil => simp [dropToCap]
  | cons a l ih =>
    by_cases h : (a :: l).length ≤ cap
    · rw [dropToCap_of_le _ _ h]
    · have h2 : cap ≤ l.length := by
        simp only [List.length_cons] at h
        omega
      rw [dropToCap_cons _ _ _ h2, List.cons_append,
          dropToCap_cons _ _ _ (by rw [List.length_append]; omega)]
      exact ih

theorem foldl_dequeAppend {α : Type} (cap : Nat) :
    ∀ (xs : List α) (st : List α), st.length ≤ cap →
      xs.foldl (dequeAppend cap) st = dropToCap cap (st ++ xs)
  | [], st, h => by simp [dropToCap_of_le cap st h]
  | x :: xs, st, h => by
    rw [List.foldl_cons,
        foldl_dequeAppend cap xs (dequeAppend cap st x) (dropToCap_length _ _)]
    unfold dequeAppend
    rw [dropToCap_append]
    simp

theorem lineReceivedBytes_history (addr : String) (hb : Cmd → HandlerBehavior)
    (h : List String) (bs : List Nat) :
    (lineReceivedBytes addr hb h bs).history =
      match acceptedRaw hb bs with
      | none => h
      | some raw => dequeAppend 10 h raw := by
  unfold lineReceivedBytes acceptedRaw
  cases hdec : utf8Decode bs with
  | none => rfl
  | some raw =>
    simp only [lineReceivedStr]
    cases hlook : lookupCmd (pyLower (pyStrip raw)) with
    | none => by_cases hl : pyLower (pyStrip raw) = "" <;> simp [hl]
    | some c =>
      cases hhb : hb c with
      | ok => simp [hhb]
      | keyError => by_cases hl : pyLower (pyStrip raw) = "" <;> simp [hl, hhb]
      | otherError => simp [hhb]

theorem runLines_eq (addr : String) (hb : Cmd → HandlerBehavior) :
    ∀ (lines : List (List Nat)) (st : List String), st.length ≤ 10 →
      runLines addr hb st lines =
        dropToCap 10 (st ++ lines.filterMap (acceptedRaw hb))
  | [], st, h => by simp [runLines, dropToCap_of_le 10 st h]
  | bs :: lines, st, h => by
    have hstep : runLines addr hb st (bs :: lines) =
        runLines addr hb (lineReceivedBytes addr hb st bs).history lines := rfl
    rw [hstep, lineReceivedBytes_history]
    cases hacc : acceptedRaw hb bs with
    | none =>
      rw [runLines_eq addr hb lines st h]
      simp [List.filterMap_cons, hacc]
    | some raw =>
      rw [runLines_eq addr hb lines (dequeAppend 10 st raw) (dropToCap_length _ _)]
      unfold dequeAppend
      rw [dropToCap_append]
      simp [List.filterMap_cons, hacc]

theorem lineReceivedStr_prompt_last (addr : String) (hb : Cmd → HandlerBehavior)
    (st : List String) (s : String) :
    ((lineReceivedStr addr hb st s).raised = none →
      (lineReceivedStr addr hb st s).events.getLast? =
        some (Event.wrote (promptString addr))) ∧
    ((lineReceivedStr addr hb st s).raised ≠ none →
      (lineReceivedStr addr hb st s).events.filter isWrite = []) := by
  simp only [lineReceivedStr]
  cases hlook : lookupCmd (pyLower (pyStrip s)) with
  | none => by_cases hl : pyLower (pyStrip s) = "" <;> simp [hl, isWrite]
  | some c =>
    cases hhb : hb c with
    | ok => simp [hhb, isWrite]
    | keyError => by_cases hl : pyLower (pyStrip s) = "" <;> simp [hl, hhb, isWrite]
    | otherError => simp [hhb, isWrite]

/- ---------------------------------------------------------------
Claim theorems.
--------------------------------------------------------------- -/

/-- C1, counterexample: constructing the protocol with every handler
docstring missing, or empty, succeeds and yields the full nine-entry
command table, and help rendering even accepts the empty docstrings;
nothing fails at registry-build time. -/
theorem registry_build_accepts_missing_descriptions :
    uInit (fun _ => none) = Except.ok commandTable ∧
    uInit (fun _ => some "") = Except.ok commandTable ∧
    commandTable.length = 9 ∧
    (∃ ls, paintHelpAux (fun _ => some "") commandTable = Except.ok ls) :=
  ⟨rfl, rfl, rfl, ⟨_, rfl⟩⟩

/-- C1, amended: registry construction performs no description
validation and never fails, whatever the docstring environment; a
missing docstring is detected only lazily, when help is rendered,
where it raises AttributeError; the handlers actually registered all
carry a non-empty docstring, so help rendering succeeds for the
registry the constructor builds. -/
theorem description_check_is_lazy :
    (∀ docs : Cmd → Option String, uInit docs = Except.ok commandTable) ∧
    paintHelpAux (fun _ => none) commandTable = Except.error PyExc.attributeError ∧
    (∃ ls, paintHelpAux pyDocs commandTable = Except.ok ls) ∧
    (∀ c : Cmd, ∃ d, pyDocs c = some d ∧ d ≠ "") := by
  refine ⟨fun _ => rfl, rfl, ⟨_, rfl⟩, ?_⟩
  intro c
  cases c <;> exact ⟨_, rfl, by decide⟩

/-- C2, counterexample: on the non-UTF-8 byte sequence FF the
dispatcher echoes nothing, writes nothing (no prompt), leaves the
history unchanged and lets the UnicodeDecodeError propagate: the
decode error is neither reported nor recovered locally. -/
theorem decode_error_not_reported :
    lineReceivedBytes "0xdeadbeef" (fun _ => HandlerBehavior.ok) ["previous"] [0xFF] =
      { events := [], history := ["previous"],
        raised := some PyExc.unicodeDecodeError } := by decide

/-- C2, amended: for every received byte sequence that is not valid
UTF-8 the history is left unchanged, but no decode error is reported
and no prompt is re-written: the decode happens before the try block,
so the UnicodeDecodeError propagates out of lineReceived. -/
theorem decode_error_propagates (addr : String) (hb : Cmd → HandlerBehavior)
    (st : List String) (bs : List Nat) (h : utf8Decode bs = none) :
    lineReceivedBytes addr hb st bs =
      { events := [], history := st, raised := some PyExc.unicodeDecodeError } := by
  unfold lineReceivedBytes
  rw [h]

/-- Witness for decode_error_propagates at the lone byte C0. -/
theorem decode_error_propagates_witness :
    utf8Decode [0xC0] = none ∧
    lineReceivedBytes "0xA" (fun _ => HandlerBehavior.ok) [] [0xC0] =
      { events := [], history := [], raised := some PyExc.unicodeDecodeError } :=
  ⟨by decide,
   decode_error_propagates "0xA" (fun _ => HandlerBehavior.ok) [] [0xC0] (by decide)⟩

/-- C3, counterexample: when the status handler fails internally with
an exception that is not a KeyError, the exception propagates and the
dispatcher writes nothing to the transport: the prompt is not
re-written. -/
theorem prompt_skipped_on_handler_failure :
    lineReceivedStr "0xdeadbeef" (fun _ => HandlerBehavior.otherError) [] "status" =
      { events := [Event.invoked Cmd.paintStatus], history := [],
        raised := some PyExc.otherError } := by decide

/-- C3, amended: the dispatcher re-writes the prompt, as its last
action, after every processed line from which no exception propagates
(valid command with a normally returning handler, unknown command,
empty input, and even a handler raising KeyError); when an exception
does propagate, nothing at all is written to the transport. -/
theorem prompt_rewritten_unless_exception (addr : String)
    (hb : Cmd → HandlerBehavior) (st : List String) (s : String) :
    ((lineReceivedStr addr hb st s).raised = none →
      (lineReceivedStr addr hb st s).events.getLast? =
        some (Event.wrote (promptString addr))) ∧
    ((lineReceivedStr addr hb st s).raised ≠ none →
      (lineReceivedStr addr hb st s).events.filter isWrite = []) :=
  lineReceivedStr_prompt_last addr hb st s

/-- Witness for prompt_rewritten_unless_exception on the line help. -/
theorem prompt_rewritten_unless_exception_witness :
    (lineReceivedStr "0xdeadbeef" (fun _ => HandlerBehavior.ok) [] "help").events.getLast? =
      some (Event.wrote (promptString "0xdeadbeef")) :=
  (prompt_rewritten_unless_exception "0xdeadbeef" (fun _ => HandlerBehavior.ok)
    [] "help").1 (by decide)

/-- C4, counterexample: the prompt for a concrete address is the
string Ursula( first nine characters ) followed by the arrow, and it
differs from every string of the form prefix-of-the-address followed
by the arrow, so the prompt is not the literal ShortNodeId >>> form
the claim states. -/
theorem prompt_literal_counterexample :
    promptString "0x1234567890abcd" = "Ursula(0x1234567) >>> " ∧
    ((List.range 17).all (fun k =>
      !(promptString "0x1234567890abcd" ==
        String.mk (("0x1234567890abcd").data.take k) ++ " >>> "))) = true := by decide

/-- C4, amended: the prompt written on connection establishment and
after every processed line that propagates no exception is the string
Ursula( ShortNodeId ) >>> , where ShortNodeId is the first nine
characters of the checksum public address of the node. -/
theorem prompt_literal_amended (addr url icon nickname : String)
    (hb : Cmd → HandlerBehavior) (st : List String) (s : String) :
    promptString addr = "Ursula(" ++ String.mk (addr.data.take 9) ++ ") >>> " ∧
    (connectionMade addr url icon nickname).getLast? =
      some (Event.wrote (promptString addr)) ∧
    ((lineReceivedStr addr hb st s).raised = none →
      (lineReceivedStr addr hb st s).events.getLast? =
        some (Event.wrote (promptString addr))) :=
  ⟨rfl, rfl, (lineReceivedStr_prompt_last addr hb st s).1⟩

/-- Witness for prompt_literal_amended at a concrete address and the
line ? processed on an empty history. -/
theorem prompt_literal_amended_witness :
    promptString "0x123456789AB" =
      "Ursula(" ++ String.mk (("0x123456789AB").data.take 9) ++ ") >>> " ∧
    (lineReceivedStr "0x123456789AB" (fun _ => HandlerBehavior.ok) [] "?").events.getLast? =
      some (Event.wrote (promptString "0x123456789AB")) :=
  ⟨(prompt_literal_amended "0x123456789AB" "url" "icon" "nick"
      (fun _ => HandlerBehavior.ok) [] "?").1,
   (prompt_literal_amended "0x123456789AB" "url" "icon" "nick"
      (fun _ => HandlerBehavior.ok) [] "?").2.2 (by decide)⟩

/-- C5, counterexample: the unknown line frobnicate is answered with
the message Invalid input. Options are followed directly by the
comma-joined names, with no colon after the word are, so the emitted
message differs from the colon form the claim states. -/
theorem invalid_input_message_counterexample :
    lineReceivedStr "0xdeadbeef" (fun _ => HandlerBehavior.ok) [] "frobnicate" =
      { events := [Event.echoed invalidInputMessage,
                   Event.wrote (promptString "0xdeadbeef")],
        history := [], raised := none } ∧
    invalidInputMessage ≠
      "Invalid input. Options are: ?, help, status, known_nodes, fleet_state, cycle_teacher, start_learning, stop_learning, stop" := by
  exact ⟨by decide, by decide⟩

/-- C5, amended: every line that is non-empty after trimming and whose
trimmed, lower-cased form matches no registered command name is
answered with exactly the message Invalid input. Options are followed
by the comma-join of all nine registered tokens in registration order
(no colon after the word are), the history is unchanged, and the
prompt is re-written. -/
theorem invalid_input_message_amended (addr : String)
    (hb : Cmd → HandlerBehavior) (st : List String) (s : String)
    (hne : pyStrip s ≠ "")
    (hnf : lookupCmd (pyLower (pyStrip s)) = none) :
    lineReceivedStr addr hb st s =
      { events := [Event.echoed invalidInputMessage,
                   Event.wrote (promptString addr)],
        history := st, raised := none } ∧
    invalidInputMessage =
      "Invalid input. Options are ?, help, status, known_nodes, fleet_state, cycle_teacher, start_learning, stop_learning, stop" ∧
    commandNames.length = 9 := by
  refine ⟨?_, by decide, by decide⟩
  have hkey : pyLower (pyStrip s) ≠ "" := pyLower_ne_empty hne
  simp only [lineReceivedStr, hnf]
  rw [if_neg hkey]

/-- Witness for invalid_input_message_amended on the line frobnicate
surrounded by whitespace. -/
theorem invalid_input_message_amended_witness :
    pyStrip " frobnicate " ≠ "" ∧
    lineReceivedStr "0xABC" (fun _ => HandlerBehavior.ok) ["old"] " frobnicate " =
      { events := [Event.echoed invalidInputMessage,
                   Event.wrote (promptString "0xABC")],
        history := ["old"], raised := none } :=
  ⟨by decide,
   (invalid_input_message_amended "0xABC" (fun _ => HandlerBehavior.ok) ["old"]
     " frobnicate " (by decide) (by decide)).1⟩

/-- C6: for every registered command token, in any letter case and
surrounded by arbitrary whitespace, and a handler that returns
normally, dispatching the line invokes exactly that handler, exactly
once, and appends the original raw line, pre-trim and pre-case-fold,
to the bounded history; the prompt is then re-written. -/
theorem dispatch_registered_token (addr : String) (hb : Cmd → HandlerBehavior)
    (st : List String) (s : String) (name : String) (c : Cmd)
    (hmem : (name, c) ∈ commandTable)
    (hnorm : pyLower (pyStrip s) = name)
    (hok : hb c = HandlerBehavior.ok) :
    lineReceivedStr addr hb st s =
      { events := [Event.invoked c, Event.wrote (promptString addr)],
        history := dequeAppend 10 st s, raised := none } := by
  have hlook : lookupCmd name = some c := lookupCmd_mem (name, c) hmem
  rw [← hnorm] at hlook
  simp only [lineReceivedStr, hlook, hok]

/-- Witness for dispatch_registered_token: the upper-case line STATUS
surrounded by spaces invokes paintStatus and the raw line enters the
history. -/
theorem dispatch_registered_token_witness :
    ("status", Cmd.paintStatus) ∈ commandTable ∧
    pyLower (pyStrip " STATUS ") = "status" ∧
    lineReceivedStr "0xABC" (fun _ => HandlerBehavior.ok) ["old"] " STATUS " =
      { events := [Event.invoked Cmd.paintStatus, Event.wrote (promptString "0xABC")],
        history := dequeAppend 10 ["old"] " STATUS ", raised := none } :=
  ⟨by decide, by decide,
   dispatch_registered_token "0xABC" (fun _ => HandlerBehavior.ok) ["old"] " STATUS "
     "status" Cmd.paintStatus (by decide) (by decide) rfl⟩

/-- C7: a line that is empty, or all whitespace, produces no message
and no handler call, leaves the history unchanged, raises nothing,
and re-writes the prompt. -/
theorem empty_input_silent (addr : String) (hb : Cmd → HandlerBehavior)
    (st : List String) (s : String) (h : pyStrip s = "") :
    lineReceivedStr addr hb st s =
      { events := [Event.wrote (promptString addr)], history := st,
        raised := none } := by
  have h2 : pyLower (pyStrip s) = "" := by rw [h]; rfl
  simp only [lineReceivedStr, h2, lookupCmd_empty]
  simp

/-- Witness for empty_input_silent on a line of three spaces. -/
theorem empty_input_silent_witness :
    pyStrip "   " = "" ∧
    lineReceivedStr "0xABC" (fun _ => HandlerBehavior.ok) ["old"] "   " =
      { events := [Event.wrote (promptString "0xABC")], history := ["old"],
        raised := none } :=
  ⟨by decide,
   empty_input_silent "0xABC" (fun _ => HandlerBehavior.ok) ["old"] "   " (by decide)⟩

/-- C8: starting from any history within the capacity of ten, after
any sequence of received lines the history is exactly the last ten of
the initial history followed by the accepted raw lines, in arrival
order, and its length never exceeds ten; accepting an eleventh line
therefore evicts the oldest. -/
theorem history_bounded_fifo (addr : String) (hb : Cmd → HandlerBehavior)
    (st : List String) (lines : List (List Nat)) (h : st.length ≤ 10) :
    runLines addr hb st lines =
      dropToCap 10 (st ++ lines.filterMap (acceptedRaw hb)) ∧
    (runLines addr hb st lines).length ≤ 10 := by
  have he := runLines_eq addr hb lines st h
  exact ⟨he, by rw [he]; exact dropToCap_length _ _⟩

/-- Witness for history_bounded_fifo: twelve accepted commands sent
from an empty history leave exactly the last ten raw lines, in the
original order. -/
theorem history_bounded_fifo_witness :
    runLines "0xA" (fun _ => HandlerBehavior.ok) []
        (List.map asciiBytes
          [" ?", "help", "STATUS", "known_nodes", "fleet_state", "cycle_teacher",
           "start_learning", "stop_learning", "stop", "Status ", "HELP", "stop"]) =
      dropToCap 10 ([] ++ (List.map asciiBytes
          [" ?", "help", "STATUS", "known_nodes", "fleet_state", "cycle_teacher",
           "start_learning", "stop_learning", "stop", "Status ", "HELP", "stop"]).filterMap
            (acceptedRaw (fun _ => HandlerBehavior.ok))) ∧
    dropToCap 10 ([] ++ (List.map asciiBytes
          [" ?", "help", "STATUS", "known_nodes", "fleet_state", "cycle_teacher",
           "start_learning", "stop_learning", "stop", "Status ", "HELP", "stop"]).filterMap
            (acceptedRaw (fun _ => HandlerBehavior.ok))) =
      ["STATUS", "known_nodes", "fleet_state", "cycle_teacher", "start_learning",
       "stop_learning", "stop", "Status ", "HELP", "stop"] :=
  ⟨(history_bounded_fifo "0xA" (fun _ => HandlerBehavior.ok) []
      (List.map asciiBytes
        [" ?", "help", "STATUS", "known_nodes", "fleet_state", "cycle_teacher",
         "start_learning", "stop_learning", "stop", "Status ", "HELP", "stop"])
      (by decide)).1,
   by decide⟩

/-- C9: on connection loss the console makes the single node call
stop_learning_loop with the disconnect cause passed through
unmodified, and makes no other call. -/
theorem connection_lost_passthrough {R : Type} (reason : R) :
    connectionLost reason = [NodeCall.stopLearningLoop reason] ∧
    (connectionLost reason).length = 1 :=
  ⟨rfl, rfl⟩

/-- C10: when the lookup of a line succeeds but the invoked handler
itself raises a KeyError, the except clause of the dispatcher cannot
tell this from a failed lookup: the handler is invoked, yet the line
is answered with the invalid-input message listing the full command
table, it is not appended to the history, and the prompt is
re-written. -/
theorem handler_keyerror_indistinguishable (addr : String)
    (hb : Cmd → HandlerBehavior) (st : List String) (s : String) (c : Cmd)
    (hlook : lookupCmd (pyLower (pyStrip s)) = some c)
    (hke : hb c = HandlerBehavior.keyError) :
    lineReceivedStr addr hb st s =
      { events := [Event.invoked c, Event.echoed invalidInputMessage,
                   Event.wrote (promptString addr)],
        history := st, raised := none } := by
  have hne : pyLower (pyStrip s) ≠ "" := by
    intro h0
    rw [h0, lookupCmd_empty] at hlook
    cases hlook
  simp only [lineReceivedStr, hlook, hke]
  rw [if_neg hne]

/-- Witness for handler_keyerror_indistinguishable: a fleet_state
handler raising KeyError makes the line report as invalid input with
no history append. -/
theorem handler_keyerror_indistinguishable_witness :
    lookupCmd (pyLower (pyStrip "fleet_state")) = some Cmd.paintFleetState ∧
    lineReceivedStr "0xABC" (fun _ => HandlerBehavior.keyError) ["old"] "fleet_state" =
      { events := [Event.invoked Cmd.paintFleetState,
                   Event.echoed invalidInputMessage,
                   Event.wrote (promptString "0xABC")],
        history := ["old"], raised := none } :=
  ⟨by decide,
   handler_keyerror_indistinguishable "0xABC" (fun _ => HandlerBehavior.keyError)
     ["old"] "fleet_state" Cmd.paintFleetState (by decide) rfl⟩
